import Mathlib

/-!
# Verification of the Interswitch python client's core pipeline

Shallow embedding of the authenticated request pipeline of the
`interswitch` python package: the token manager
(`src/interswitch/auth/base.py`, `sync_token_manager.py`,
`async_token_manager.py`), the HTTP transport
(`src/interswitch/http_client/base.py`, `sync_request.py`,
`async_request.py`) and the permission checker
(`src/interswitch/permissions.py`).

Conventions of the embedding:
* python `datetime` values are modelled as `Int` timestamps (seconds);
  `timedelta(seconds = n)` is addition of `n`.
* a python `dict` carrying a parsed JSON body is modelled as an
  association list `List (String × JValue)`; `dict.get` is first-match
  lookup, `dict[k] = v` replaces the first binding or appends.
* JSON values are restricted to the shapes the embedded code ever
  inspects: null, booleans, integers, strings and lists of strings.
  Every branch of the embedded code only compares a value to a string,
  tests key membership, or tests python truthiness, so the restriction
  does not change any control flow.
* exceptions are modelled with `Except`; the `SdkError` type collects
  the exception classes of `src/interswitch/exceptions.py` and
  `src/interswitch/permissions.py` together with `AttributeError`,
  which python raises when a missing attribute is looked up.
* the stateful methods of the token manager become state-passing
  functions, and the network becomes explicit parameters giving the
  outcome each HTTP attempt would have.
-/

namespace Interswitch

/-- JSON values, restricted to the shapes the embedded code inspects. -/
inductive JValue where
  | null
  | bool (b : Bool)
  | num (n : Int)
  | str (s : String)
  | strList (xs : List String)
deriving Repr, DecidableEq

/-- A parsed JSON object (python `dict`), as an association list. -/
abbrev JDict := List (String × JValue)

/-- `d.get(k)`: first binding of `k`, if any. -/
def jget (d : JDict) (k : String) : Option JValue :=
  match d with
  | [] => none
  | (k', v) :: rest => if k' = k then some v else jget rest k

/-- `d.get(k, dflt)`: the stored value when the key is present
(python returns the stored value even when it is `None`), else the
default. -/
def jgetD (d : JDict) (k : String) (dflt : JValue) : JValue :=
  (jget d k).getD dflt

/-- `k in d`. -/
def jmember (d : JDict) (k : String) : Bool :=
  (jget d k).isSome

/-- `d[k] = v`: replace the first binding of `k`, or append one. -/
def jset (d : JDict) (k : String) (v : JValue) : JDict :=
  match d with
  | [] => [(k, v)]
  | (k', v') :: rest => if k' = k then (k', v) :: rest else (k', v') :: jset rest k v

/-- Python truthiness of a JSON value. -/
def jtruthy : JValue → Bool
  | .null => false
  | .bool b => b
  | .num n => !(n == 0)
  | .str s => !(s == "")
  | .strList xs => !xs.isEmpty

/-- `str(v)` for the values the embedded code stringifies. -/
def pyStr : JValue → String
  | .num n => toString n
  | .str s => s
  | .bool true => "True"
  | .bool false => "False"
  | .null => "None"
  | .strList _ => ""

/-- The exception classes of `exceptions.py` / `permissions.py`, plus
python's `AttributeError`.  Fields mirror `InterswitchError.__init__`
(`message`, `status_code`, `reason`, `response_data`); fields that the
code may fill with arbitrary JSON values are typed `JValue`. -/
inductive SdkError where
  | authenticationError (message : String) (reason : String)
  | rateLimitError (message : String) (status_code : String) (reason : String)
      (response_data : Option JDict)
  | validationError (message : JValue) (status_code : String) (reason : JValue)
      (response_data : JDict)
  | networkError (message : String) (reason : String)
  | apiError (message : JValue) (status_code : JValue) (reason : JValue)
      (response_data : JDict)
  | insufficientActionsError (required : List String) (available : List String)
      (message : String)
  | attributeError (attr : String)
deriving Repr, DecidableEq

/-! ## Token manager state (`auth/base.py`) -/

/-- The fields of a token-endpoint JSON payload that
`BaseTokenManager._process_new_token_data` reads.  `access_token` is
`token_data.get("access_token")` (absent key and JSON null both map to
`none`); `expires_in` is the `"expires_in"` field when present. -/
structure TokenPayload where
  access_token : Option String
  expires_in : Option Int
deriving Repr, DecidableEq

/-- The mutable token state of `BaseTokenManager`:
`self.access_token`, `self.token_expiry`, `self.token_data`. -/
structure TokenState where
  access_token : Option String
  token_expiry : Option Int
  token_data : Option TokenPayload
deriving Repr, DecidableEq

/-- The state set up by `BaseTokenManager.__init__`: all three fields
`None`. -/
def initTokenState : TokenState := ⟨none, none, none⟩

/-- Python truthiness of `self.access_token` (`None` and `""` are
falsy). -/
def strTruthy : Option String → Bool
  | none => false
  | some s => !(s == "")

/-- `BaseTokenManager.is_token_valid`: `False` when `access_token` or
`token_expiry` is falsy, else `datetime.now() < self.token_expiry`. -/
def is_token_valid (st : TokenState) (now : Int) : Bool :=
  match st.access_token, st.token_expiry with
  | some t, some e => if t = "" then false else decide (now < e)
  | _, _ => false

/-- `BaseTokenManager._process_new_token_data`: store
`token_data.get("access_token")`, set
`token_expiry = now + (expires_in - 60)` where `expires_in` defaults to
the configured fallback, and keep the payload. -/
def _process_new_token_data (_st : TokenState) (payload : TokenPayload)
    (now : Int) (default_token_expiry : Int) : TokenState :=
  { access_token := payload.access_token
    token_expiry := some (now + (payload.expires_in.getD default_token_expiry - 60))
    token_data := some payload }

/-- `BaseTokenManager.invalidate_token`: clear all three fields. -/
def invalidate_token (_st : TokenState) : TokenState :=
  ⟨none, none, none⟩

/-! ## `get_token` (`auth/sync_token_manager.py` lines 50–72 and, with
identical control flow, `auth/async_token_manager.py` lines 76–100)

The two-state model makes the lock visible: `st` is the state the
caller observes before taking the lock, `stLocked` the state once the
per-instance lock is held (another thread/coroutine may have refreshed
in between).  `fetchResult` is the outcome `_fetch_new_token`'s HTTP
call would have: `.error e` models a `requests`/`httpx` failure (which
`_fetch_new_token` re-raises as `AuthenticationError`), `.ok payload` a
2xx JSON payload.  The result carries the returned value, the final
state, and the number of network fetches performed. -/

def get_token (st stLocked : TokenState) (now : Int)
    (fetchResult : Except String TokenPayload) (default_token_expiry : Int) :
    Except SdkError String × TokenState × Nat :=
  if is_token_valid st now && strTruthy st.access_token then
    (.ok (st.access_token.getD ""), st, 0)
  else if is_token_valid stLocked now && strTruthy stLocked.access_token then
    (.ok (stLocked.access_token.getD ""), stLocked, 0)
  else
    match fetchResult with
    | .error e =>
        (.error (.authenticationError ("Token request failed: " ++ e) e), stLocked, 1)
    | .ok payload =>
        let st2 := _process_new_token_data stLocked payload now default_token_expiry
        if strTruthy st2.access_token then
          (.ok (st2.access_token.getD ""), st2, 1)
        else
          (.error (.authenticationError "Failed to obtain access token"
            "Token is None after refresh attempt"), st2, 1)

/-! ## Response normalization (`http_client/base.py` lines 26–51) -/

def ERROR_RESPONSE_CODE : String := "ERROR"

/-- `BaseHttpRequest._normalize_response`. -/
def _normalize_response (response_data : JDict) (status_code : Nat) : JDict :=
  if jget response_data "responseCode" = some (.str ERROR_RESPONSE_CODE) then
    [("success", .bool false),
     ("code", .str ERROR_RESPONSE_CODE),
     ("status_code", .num status_code),
     ("message", jgetD response_data "message" (.str "")),
     ("logId", jgetD response_data "logId" .null),
     ("errors", jgetD response_data "errors" (.strList [])),
     ("data", jgetD response_data "data" .null)]
  else if jmember response_data "success" then
    jset response_data "status_code" (.num status_code)
  else
    [("success", .bool (decide (status_code < 400))),
     ("code", jgetD response_data "responseCode" (.str (toString status_code))),
     ("status_code", .num status_code),
     ("message", jgetD response_data "message" (.str "Request processed")),
     ("data", jgetD response_data "data" .null)]

/-! ## Transport (`http_client/sync_request.py` lines 66–163;
`http_client/async_request.py` is identical except that its `APIError`
`reason` reads the `"errors"` key and its generic network handler says
`"Network request failed"` — no claim depends on either field). -/

/-- The normalized envelope `interswitch_types.APIResponse` as built at
`sync_request.py` lines 139–145. -/
structure APIResponse where
  status_code : String
  success : JValue
  code : JValue
  message : JValue
  data : JValue
deriving Repr, DecidableEq

/-- Status/body classification of the final HTTP response
(`sync_request.py` lines 95–145): 429, then 400, then ≥ 500, then JSON
parse (empty body → empty dict), normalization, and the
`success`-falsy check. -/
def classify (status : Nat) (content : Option JDict) : Except SdkError APIResponse :=
  if status = 429 then
    .error (.rateLimitError "API rate limit exceeded" "429" "Too many requests" content)
  else if status = 400 then
    let error_data := content.getD []
    .error (.validationError (jgetD error_data "message" (.str "Validation failed"))
      (toString status) (jgetD error_data "error" (.str "Bad request")) error_data)
  else if 500 ≤ status then
    .error (.networkError "Server error occurred" ("Server return " ++ toString status))
  else
    let response_data := content.getD []
    let normalized_data := _normalize_response response_data status
    if jtruthy (jgetD normalized_data "success" (.bool false)) = false then
      .error (.apiError (jgetD normalized_data "message" (.str "API request failed"))
        (jgetD normalized_data "code" (.str (toString status)))
        (jgetD normalized_data "error" (.str "Unknown error")) normalized_data)
    else
      .ok { status_code := pyStr (jgetD normalized_data "status_code" .null)
            success := jgetD normalized_data "success" .null
            code := jgetD normalized_data "code" .null
            message := jgetD normalized_data "message" .null
            data := jgetD normalized_data "data" .null }

/-- The outcome a single HTTP attempt would have: a response with a
status and an optional body (`none` models empty content), a timeout,
or a connection error. -/
inductive HttpOutcome where
  | resp (status : Nat) (content : Option JDict)
  | timeout
  | connError (msg : String)
deriving Repr, DecidableEq

/-- The reason string of the timeout handler
(`sync_request.py` line 152): `f"Connection timeout after {self.timeout} seconds"`. -/
def timeoutReason (timeout : Nat) : String :=
  "Connection timeout after " ++ toString timeout ++ " seconds"

/-- `request()` after the auth header has been obtained
(`sync_request.py` lines 57–163): issue the call, retry once after a
401 (invalidating and refreshing the token in between), classify the
final response, and reclassify `requests` timeout/connection errors as
`NetworkError`.  `attempt1`/`attempt2` are the outcomes the two
possible HTTP attempts would have; `refreshOutcome` is the outcome of
the token refetch in the 401 branch.  The result carries the
classification, the number of API calls issued and the number of token
invalidate-and-refresh cycles performed. -/
def requestAfterAuth (attempt1 attempt2 : HttpOutcome)
    (refreshOutcome : Except String Unit) (timeout : Nat) :
    Except SdkError APIResponse × Nat × Nat :=
  match attempt1 with
  | .timeout =>
      (.error (.networkError "Request timed out" (timeoutReason timeout)), 1, 0)
  | .connError m =>
      (.error (.networkError "Connection failed" m), 1, 0)
  | .resp s c =>
    if s = 401 then
      match refreshOutcome with
      | .error e =>
          (.error (.authenticationError ("Token request failed: " ++ e) e), 1, 1)
      | .ok _ =>
        match attempt2 with
        | .timeout =>
            (.error (.networkError "Request timed out" (timeoutReason timeout)), 2, 1)
        | .connError m =>
            (.error (.networkError "Connection failed" m), 2, 1)
        | .resp s2 c2 => (classify s2 c2, 2, 1)
    else (classify s c, 1, 0)

/-! ## Permission checker (`permissions.py`) -/

/-- `" or ".join(parts)`. -/
def joinOr : List String → String
  | [] => ""
  | [x] => x
  | x :: y :: rest => x ++ " or " ++ joinOr (y :: rest)

/-- `f"'{s}'"`. -/
def quoteAction (s : String) : String := "'" ++ s ++ "'"

/-- `scope_str` of `InsufficientActionsError.__init__`: the single
action quoted, else the quoted actions joined with `" or "`. -/
def scopeStr (required : List String) : String :=
  match required with
  | [r] => quoteAction r
  | l => joinOr (l.map quoteAction)

/-- `InsufficientActionsError.message`. -/
def insufficientMessage (required : List String) : String :=
  "Your token does not have permission for this API. Required: " ++
    scopeStr required ++
    ". Go to the Interswitch Marketplace, open your project, " ++
    "and enable the missing API product."

/-- `permissions.check_api_actions` for a list-valued `required` (a
string argument is first wrapped into a one-element list by the
source). -/
def check_api_actions (required available : List String) : Except SdkError Unit :=
  if required.isEmpty then .ok ()
  else if required.any (fun action => available.contains action) then .ok ()
  else .error (.insufficientActionsError required available (insufficientMessage required))

/-! ## The async capability gate (`http_client/async_request.py`
lines 48–51)

`AsyncRequest.request` runs, when `required_actions` is truthy,
`available_actions = self.token_manager.get_api_actions()` followed by
`check_api_actions(required_actions, available_actions)`.  The
attribute lookup is modelled explicitly, because no class in the
repository defines `get_api_actions`. -/

/-- The attributes callable on an `AsyncTokenManager` instance: the
methods defined by `auth/async_token_manager.py` and its base class
`auth/base.py`. -/
def asyncTokenManagerMethods : List String :=
  ["__init__", "is_token_valid", "_process_new_token_data", "invalidate_token",
   "get_token_info", "__repr__", "_get_lock", "_fetch_new_token", "get_token",
   "refresh_token", "get_auth_header"]

/-- Python attribute lookup on an `AsyncTokenManager`: `AttributeError`
when the name is not defined. -/
def lookupAsyncManagerMethod (name : String) : Except SdkError String :=
  if asyncTokenManagerMethods.contains name then .ok name
  else .error (.attributeError name)

/-- The capability gate of `AsyncRequest.request`: skipped when
`required_actions` is falsy; otherwise look up `get_api_actions` on the
token manager and, were the lookup to succeed with capability list
`available`, run `check_api_actions`. -/
def asyncCapabilityGate (required_actions available : List String) :
    Except SdkError Unit :=
  if required_actions.isEmpty then .ok ()
  else
    match lookupAsyncManagerMethod "get_api_actions" with
    | .error e => .error e
    | .ok _ => check_api_actions required_actions available

/-! ## Helper lemmas -/

theorem strData_append (s u : String) : (s ++ u).data = s.data ++ u.data := by
  cases s; cases u; rfl

theorem jget_jset_self (d : JDict) (k : String) (v : JValue) :
    jget (jset d k v) k = some v := by
  induction d with
  | nil => simp [jset, jget]
  | cons p rest ih =>
    obtain ⟨k', v'⟩ := p
    by_cases h : k' = k
    · simp [jset, jget, h]
    · simp [jset, jget, h, ih]

theorem jget_jset_ne (d : JDict) (k k' : String) (v : JValue) (h : k ≠ k') :
    jget (jset d k v) k' = jget d k' := by
  induction d with
  | nil => simp [jset, jget, h]
  | cons p rest ih =>
    obtain ⟨k₀, v₀⟩ := p
    by_cases h₀ : k₀ = k
    · subst h₀
      simp [jset, jget, h]
    · simp [jset, jget, h₀, ih]

theorem is_token_valid_true_iff (st : TokenState) (now : Int) :
    is_token_valid st now = true ↔
      ∃ t e, st.access_token = some t ∧ st.token_expiry = some e ∧ t ≠ "" ∧ now < e := by
  unfold is_token_valid
  rcases hA : st.access_token with _ | t <;> rcases hE : st.token_expiry with _ | e <;>
    simp [hA, hE]

theorem strTruthy_of_valid (st : TokenState) (now : Int)
    (h : is_token_valid st now = true) : strTruthy st.access_token = true := by
  obtain ⟨t, e, hA, hE, hne, hlt⟩ := (is_token_valid_true_iff st now).1 h
  simp [strTruthy, hA, hne]

theorem is_token_valid_false_of_expired (st : TokenState) (now : Int)
    (h : ∀ e, st.token_expiry = some e → e ≤ now) : is_token_valid st now = false := by
  unfold is_token_valid
  rcases hA : st.access_token with _ | t <;> rcases hE : st.token_expiry with _ | e <;>
    simp [hA, hE]
  intro _
  exact h e hE

theorem get_token_fetches_when_invalid (st stLocked : TokenState) (now : Int)
    (fetchResult : Except String TokenPayload) (d : Int)
    (h1 : is_token_valid st now = false) (h2 : is_token_valid stLocked now = false) :
    (get_token st stLocked now fetchResult d).2.2 = 1 := by
  unfold get_token
  rw [h1, h2]
  simp only [Bool.false_and, Bool.false_eq_true, if_false]
  cases fetchResult with
  | error e => rfl
  | ok payload =>
    by_cases hT : strTruthy (_process_new_token_data stLocked payload now d).access_token = true
    · simp [hT]
    · simp [hT]

/-! ## Claim theorems -/

/-- C9: `invalidate_token` is idempotent and unconditional: from every
token state it clears `access_token`, `token_expiry` and `token_data`
(reaching the empty initial state), and applying it twice equals
applying it once. -/
theorem invalidate_token_unconditional_idempotent (st : TokenState) :
    invalidate_token st = initTokenState ∧
    (invalidate_token st).access_token = none ∧
    (invalidate_token st).token_expiry = none ∧
    (invalidate_token st).token_data = none ∧
    invalidate_token (invalidate_token st) = invalidate_token st :=
  ⟨rfl, rfl, rfl, rfl, rfl⟩

/-- C4 counterexample: `_process_new_token_data` applied to a payload
with no `access_token` (a reachable 2xx token response such as `{}`
with `expires_in` only) leaves the state partially updated:
`access_token` is absent while `token_expiry` is set, refuting the
claimed invariant `access_token present ⇔ expires_at present` after
every operation. -/
theorem token_invariant_counterexample :
    (_process_new_token_data initTokenState ⟨none, some 1799⟩ 0 1799).access_token = none ∧
    (_process_new_token_data initTokenState ⟨none, some 1799⟩ 0 1799).token_expiry =
      some 1739 := by
  constructor
  · rfl
  · show some (0 + (1799 - 60)) = some (1739 : Int)
    norm_num

/-- The claimed invariant on a token state: `access_token` present iff
`token_expiry` present. -/
def tokenStateInvariant (st : TokenState) : Prop :=
  st.access_token.isSome ↔ st.token_expiry.isSome

/-- C4 amended: the invariant `access_token present ⇔ expires_at
present` holds for the initial state, after `invalidate_token`, and
after any `_process_new_token_data` whose payload carries an
`access_token`; a fetch always sets `token_expiry`, so a payload
without an `access_token` breaks the invariant (see the
counterexample). -/
theorem token_invariant_amended (st : TokenState) (p : TokenPayload) (now d : Int) :
    tokenStateInvariant initTokenState ∧
    tokenStateInvariant (invalidate_token st) ∧
    (p.access_token.isSome = true → tokenStateInvariant (_process_new_token_data st p now d)) ∧
    (_process_new_token_data st p now d).token_expiry.isSome = true := by
  refine ⟨?_, ?_, ?_, ?_⟩
  · simp [tokenStateInvariant, initTokenState]
  · simp [tokenStateInvariant, invalidate_token]
  · intro h
    simp [tokenStateInvariant, _process_new_token_data, h]
  · simp [_process_new_token_data]

/-- Witness for C4 amended: a payload carrying an access token yields
a state satisfying the invariant. -/
theorem token_invariant_amended_witness :
    (Option.isSome (some "tok") = true) ∧
    tokenStateInvariant (_process_new_token_data initTokenState ⟨some "tok", some 1799⟩ 0 1799) :=
  ⟨rfl, (token_invariant_amended initTokenState ⟨some "tok", some 1799⟩ 0 1799).2.2.1 rfl⟩

/-- C8: a successful fetch stores
`expires_at = fetch-time + expires_in - 60`, with `expires_in`
defaulting to the configured fallback when absent; with
`expires_in = 1799` the stored expiry is fetch-time + 1739,
`is_token_valid` is true immediately after the fetch (for a non-empty
token), and false once the current time reaches or passes the stored
expiry. -/
theorem process_token_expiry_spec (st : TokenState) (p : TokenPayload) (now d : Int) :
    (∀ e, p.expires_in = some e →
      (_process_new_token_data st p now d).token_expiry = some (now + e - 60)) ∧
    (p.expires_in = none →
      (_process_new_token_data st p now d).token_expiry = some (now + d - 60)) ∧
    (∀ t, p.expires_in = some 1799 → p.access_token = some t → t ≠ "" →
      (_process_new_token_data st p now d).token_expiry = some (now + 1739) ∧
      is_token_valid (_process_new_token_data st p now d) now = true ∧
      (∀ now2 : Int, now + 1739 ≤ now2 →
        is_token_valid (_process_new_token_data st p now d) now2 = false)) := by
  refine ⟨?_, ?_, ?_⟩
  · intro e he
    simp [_process_new_token_data, he]
    omega
  · intro he
    simp [_process_new_token_data, he]
    omega
  · intro t he ht hne
    refine ⟨?_, ?_, ?_⟩
    · simp [_process_new_token_data, he]
    · simp [is_token_valid, _process_new_token_data, he, ht, hne]
    · intro now2 h2
      simp [is_token_valid, _process_new_token_data, he, ht, hne]
      omega

/-- Witness for C8 at a concrete fetch: payload
`{access_token: "tok", expires_in: 1799}` processed at time 0 stores
expiry 1739, is valid at time 0, and is invalid at time 1739. -/
theorem process_token_expiry_spec_witness :
    (_process_new_token_data initTokenState ⟨some "tok", some 1799⟩ 0 1799).token_expiry =
      some 1739 ∧
    is_token_valid (_process_new_token_data initTokenState ⟨some "tok", some 1799⟩ 0 1799) 0 =
      true ∧
    is_token_valid (_process_new_token_data initTokenState ⟨some "tok", some 1799⟩ 0 1799) 1739 =
      false := by
  obtain ⟨-, -, h⟩ :=
    process_token_expiry_spec initTokenState ⟨some "tok", some 1799⟩ 0 1799
  obtain ⟨h1, h2, h3⟩ := h "tok" rfl rfl (by decide)
  refine ⟨by simpa using h1, h2, by simpa using h3 1739 (by norm_num)⟩

/-- C10: a fetched payload with `expires_in ≤ 60` stores an expiry not
after the fetch time, so the token is immediately invalid and every
subsequent `get_token` call (at any time not before the fetch)
performs a fetch instead of using the cache. -/
theorem short_expiry_forces_refetch (st : TokenState) (p : TokenPayload) (now d e : Int)
    (he : p.expires_in = some e) (hle : e ≤ 60) :
    (_process_new_token_data st p now d).token_expiry = some (now + e - 60) ∧
    now + e - 60 ≤ now ∧
    (∀ now2, now ≤ now2 →
      is_token_valid (_process_new_token_data st p now d) now2 = false) ∧
    (∀ now2 fr, now ≤ now2 →
      (get_token (_process_new_token_data st p now d)
        (_process_new_token_data st p now d) now2 fr d).2.2 = 1) := by
  have hexp : (_process_new_token_data st p now d).token_expiry = some (now + e - 60) := by
    simp [_process_new_token_data, he]
    omega
  have hinvalid : ∀ now2 : Int, now ≤ now2 →
      is_token_valid (_process_new_token_data st p now d) now2 = false := by
    intro now2 h2
    refine is_token_valid_false_of_expired _ _ ?_
    intro e' he'
    rw [hexp] at he'
    have h3 : now + e - 60 = e' := Option.some.inj he'
    omega
  refine ⟨hexp, by omega, hinvalid, ?_⟩
  intro now2 fr h2
  exact get_token_fetches_when_invalid _ _ _ _ _ (hinvalid now2 h2) (hinvalid now2 h2)

/-- Witness for C10: `expires_in = 60` processed at time 0 gives
expiry 0; the token is invalid at time 0 and `get_token` at time 0
performs one fetch. -/
theorem short_expiry_forces_refetch_witness :
    (_process_new_token_data initTokenState ⟨some "tok", some 60⟩ 0 1799).token_expiry =
      some 0 ∧
    is_token_valid (_process_new_token_data initTokenState ⟨some "tok", some 60⟩ 0 1799) 0 =
      false ∧
    (get_token (_process_new_token_data initTokenState ⟨some "tok", some 60⟩ 0 1799)
      (_process_new_token_data initTokenState ⟨some "tok", some 60⟩ 0 1799) 0
      (.ok ⟨some "tok2", some 1799⟩) 1799).2.2 = 1 := by
  obtain ⟨h1, -, h3, h4⟩ :=
    short_expiry_forces_refetch initTokenState ⟨some "tok", some 60⟩ 0 1799 60 rfl
      (by norm_num)
  refine ⟨by simpa using h1, by simpa using h3 0 le_rfl, h4 0 _ le_rfl⟩

/-- C1: `get_token` (sync and async embed to the same control flow):
with a valid cached token it returns the cached string with zero
fetches; if the pre-lock check fails but the state seen under the lock
is valid (another caller refreshed), the cached token is returned with
zero fetches; if still invalid under the lock exactly one fetch is
performed; and when the fetch leaves no (truthy) access token the call
fails with `AuthenticationError` ("Failed to obtain access token"). -/
theorem get_token_spec (st stLocked : TokenState) (now : Int)
    (fr : Except String TokenPayload) (d : Int) :
    (∀ t, is_token_valid st now = true → st.access_token = some t →
      get_token st stLocked now fr d = (.ok t, st, 0)) ∧
    (∀ t, is_token_valid st now = false → is_token_valid stLocked now = true →
      stLocked.access_token = some t →
      get_token st stLocked now fr d = (.ok t, stLocked, 0)) ∧
    (is_token_valid st now = false → is_token_valid stLocked now = false →
      (get_token st stLocked now fr d).2.2 = 1) ∧
    (∀ p, is_token_valid st now = false → is_token_valid stLocked now = false →
      fr = .ok p → strTruthy p.access_token = false →
      (get_token st stLocked now fr d).1 =
        .error (.authenticationError "Failed to obtain access token"
          "Token is None after refresh attempt")) := by
  refine ⟨?_, ?_, ?_, ?_⟩
  · intro t hv hA
    have hT := strTruthy_of_valid st now hv
    unfold get_token
    rw [hv, hT]
    simp [hA]
  · intro t hv hv2 hA
    have hT := strTruthy_of_valid stLocked now hv2
    unfold get_token
    rw [hv, hv2, hT]
    simp [hA]
  · intro hv hv2
    exact get_token_fetches_when_invalid st stLocked now fr d hv hv2
  · intro p hv hv2 hfr hT
    subst hfr
    unfold get_token
    rw [hv, hv2]
    simp [hT, _process_new_token_data]

/-- Witness for C1: a cached valid token is returned with zero
fetches; from the empty state, a fetch returning a payload without an
access token fails with the `AuthenticationError`. -/
theorem get_token_spec_witness :
    get_token ⟨some "tok", some 10, none⟩ ⟨some "tok", some 10, none⟩ 0 (.error "net") 1799 =
      (.ok "tok", ⟨some "tok", some 10, none⟩, 0) ∧
    (get_token initTokenState initTokenState 0 (.ok ⟨none, some 1799⟩) 1799).1 =
      .error (.authenticationError "Failed to obtain access token"
        "Token is None after refresh attempt") := by
  obtain ⟨h1, -, -, -⟩ :=
    get_token_spec ⟨some "tok", some 10, none⟩ ⟨some "tok", some 10, none⟩ 0 (.error "net") 1799
  obtain ⟨-, -, -, h4⟩ :=
    get_token_spec initTokenState initTokenState 0 (.ok ⟨none, some 1799⟩) 1799
  exact ⟨h1 "tok" (by decide) rfl, h4 ⟨none, some 1799⟩ (by decide) (by decide) rfl rfl⟩

/-- C2: a first 401 response triggers exactly one token
invalidate-and-refresh cycle and exactly one retried API call, whose
response is then classified normally; when the retry also returns 401
no second refresh or retry happens and the retried 401 response itself
determines the surfaced outcome; a non-401 first response causes no
refresh and no retry. -/
theorem request_401_retry_spec (c1 c2 : Option JDict) (r2 : HttpOutcome) (t : Nat) :
    (∀ s2 b2, requestAfterAuth (.resp 401 c1) (.resp s2 b2) (.ok ()) t =
      (classify s2 b2, 2, 1)) ∧
    (requestAfterAuth (.resp 401 c1) (.resp 401 c2) (.ok ()) t = (classify 401 c2, 2, 1)) ∧
    (∀ s b, s ≠ 401 → requestAfterAuth (.resp s b) r2 (.ok ()) t = (classify s b, 1, 0)) := by
  refine ⟨?_, ?_, ?_⟩
  · intro s2 b2
    rfl
  · rfl
  · intro s b hs
    dsimp only [requestAfterAuth]
    rw [if_neg hs]

/-- Witness for C2: with body-less responses, a 401 followed by a
second 401 yields the second response's classification after exactly
two API calls and one refresh, and a first 200 response yields one API
call and no refresh. -/
theorem request_401_retry_spec_witness :
    requestAfterAuth (.resp 401 none) (.resp 401 none) (.ok ()) 30 =
      (classify 401 none, 2, 1) ∧
    requestAfterAuth (.resp 200 none) (.resp 401 none) (.ok ()) 30 =
      (classify 200 none, 1, 0) := by
  obtain ⟨-, h2, h3⟩ := request_401_retry_spec none none (.resp 401 none) 30
  exact ⟨h2, h3 200 none (by decide)⟩

/-- C6: classification of the final response: 429 fails with
`RateLimitError` carrying the parsed body when present; 400 fails with
`ValidationError` taking message/reason from the body's
`message`/`error` fields when present; status ≥ 500 fails with
`NetworkError`; any other status parses the body (empty body → empty
dict), normalizes it, and a falsy normalized `success` fails with
`APIError` carrying the normalized code/message; a timeout on either
attempt and a connection failure are raised as `NetworkError` (never a
raw transport exception), the timeout reason recording the configured
timeout. -/
theorem error_classification_spec (s : Nat) (c : Option JDict) (b : JDict) (m : String)
    (r2 : HttpOutcome) (ro : Except String Unit) (t : Nat) :
    classify 429 c = .error (.rateLimitError "API rate limit exceeded" "429"
      "Too many requests" c) ∧
    classify 400 (some b) = .error (.validationError
      (jgetD b "message" (.str "Validation failed")) "400"
      (jgetD b "error" (.str "Bad request")) b) ∧
    (500 ≤ s → classify s c = .error (.networkError "Server error occurred"
      ("Server return " ++ toString s))) ∧
    (s ≠ 429 → s ≠ 400 → s < 500 →
      jtruthy (jgetD (_normalize_response (c.getD []) s) "success" (.bool false)) = false →
      classify s c = .error (.apiError
        (jgetD (_normalize_response (c.getD []) s) "message" (.str "API request failed"))
        (jgetD (_normalize_response (c.getD []) s) "code" (.str (toString s)))
        (jgetD (_normalize_response (c.getD []) s) "error" (.str "Unknown error"))
        (_normalize_response (c.getD []) s))) ∧
    requestAfterAuth .timeout r2 ro t =
      (.error (.networkError "Request timed out"
        ("Connection timeout after " ++ toString t ++ " seconds")), 1, 0) ∧
    requestAfterAuth (.resp 401 c) .timeout (.ok ()) t =
      (.error (.networkError "Request timed out"
        ("Connection timeout after " ++ toString t ++ " seconds")), 2, 1) ∧
    requestAfterAuth (.connError m) r2 ro t =
      (.error (.networkError "Connection failed" m), 1, 0) := by
  refine ⟨rfl, rfl, ?_, ?_, rfl, rfl, rfl⟩
  · intro h
    unfold classify
    rw [if_neg (by omega), if_neg (by omega), if_pos h]
  · intro h429 h400 h500 hsucc
    unfold classify
    rw [if_neg h429, if_neg h400, if_neg (by omega)]
    simp only [hsucc, if_pos]

/-- Witness for C6: a 502 response fails as a server error, and a 201
response with the explicit error-marker body fails with `APIError`
carrying the normalized code/message. -/
theorem error_classification_spec_witness :
    classify 502 none = .error (.networkError "Server error occurred" "Server return 502") ∧
    classify 201 (some [("responseCode", JValue.str "ERROR"), ("message", JValue.str "x")]) =
      .error (.apiError (.str "x") (.str "ERROR") (.str "Unknown error")
        [("success", .bool false), ("code", .str "ERROR"), ("status_code", .num 201),
         ("message", .str "x"), ("logId", .null), ("errors", .strList []),
         ("data", .null)]) := by
  have h3 := (error_classification_spec 502 none [] "" .timeout (.ok ()) 30).2.2.1
  have h4 :=
    (error_classification_spec 201
      (some [("responseCode", JValue.str "ERROR"), ("message", JValue.str "x")])
      [] "" .timeout (.ok ()) 30).2.2.2.1
  constructor
  · rw [h3 (by norm_num)]
    rfl
  · rw [h4 (by decide) (by decide) (by decide) (by decide)]
    rfl

/-- C3: `_normalize_response` collapses the three upstream shapes:
(a) a body whose `responseCode` is the string `"ERROR"` yields
success=false, code="ERROR", the body's message (default `""`) and the
given status code; (b) a body already containing a `success` key is
passed through with `status_code` injected and every other key
untouched; (c) any other body yields success = (status < 400), code =
the body's `responseCode` or the stringified status, message default
"Request processed"; in particular a success-free, non-error-marker
body at HTTP 201 yields success=true. -/
theorem normalize_response_spec (rd : JDict) (s : Nat) :
    (jget rd "responseCode" = some (.str "ERROR") →
      jget (_normalize_response rd s) "success" = some (.bool false) ∧
      jget (_normalize_response rd s) "code" = some (.str "ERROR") ∧
      jget (_normalize_response rd s) "message" = some (jgetD rd "message" (.str "")) ∧
      jget (_normalize_response rd s) "status_code" = some (.num s)) ∧
    (jget rd "responseCode" ≠ some (.str "ERROR") → jmember rd "success" = true →
      _normalize_response rd s = jset rd "status_code" (.num s) ∧
      jget (_normalize_response rd s) "status_code" = some (.num s) ∧
      (∀ k, k ≠ "status_code" → jget (_normalize_response rd s) k = jget rd k)) ∧
    (jget rd "responseCode" ≠ some (.str "ERROR") → jmember rd "success" = false →
      jget (_normalize_response rd s) "success" = some (.bool (decide (s < 400))) ∧
      jget (_normalize_response rd s) "code" =
        some (jgetD rd "responseCode" (.str (toString s))) ∧
      jget (_normalize_response rd s) "message" =
        some (jgetD rd "message" (.str "Request processed")) ∧
      jget (_normalize_response rd s) "status_code" = some (.num s)) ∧
    (jget rd "responseCode" ≠ some (.str "ERROR") → jmember rd "success" = false →
      jget (_normalize_response rd 201) "success" = some (.bool true)) := by
  refine ⟨?_, ?_, ?_, ?_⟩
  · intro h
    unfold _normalize_response
    simp only [ERROR_RESPONSE_CODE]
    rw [if_pos h]
    exact ⟨rfl, rfl, rfl, rfl⟩
  · intro h hm
    unfold _normalize_response
    simp only [ERROR_RESPONSE_CODE]
    rw [if_neg h, if_pos hm]
    exact ⟨rfl, jget_jset_self rd "status_code" (.num s),
      fun k hk => jget_jset_ne rd "status_code" k (.num s) (Ne.symm hk)⟩
  · intro h hm
    have hm' : ¬ jmember rd "success" = true := by simp [hm]
    unfold _normalize_response
    simp only [ERROR_RESPONSE_CODE]
    rw [if_neg h, if_neg hm']
    exact ⟨rfl, rfl, rfl, rfl⟩
  · intro h hm
    have hm' : ¬ jmember rd "success" = true := by simp [hm]
    unfold _normalize_response
    simp only [ERROR_RESPONSE_CODE]
    rw [if_neg h, if_neg hm']
    rfl

/-- Witness for C3: the error-marker body, a pass-through body, and a
plain body at 201. -/
theorem normalize_response_spec_witness :
    jget (_normalize_response [("responseCode", .str "ERROR"), ("message", .str "x")] 409)
      "success" = some (.bool false) ∧
    jget (_normalize_response [("responseCode", .str "ERROR"), ("message", .str "x")] 409)
      "code" = some (.str "ERROR") ∧
    _normalize_response [("success", JValue.bool true), ("data", .num 7)] 200 =
      jset [("success", JValue.bool true), ("data", .num 7)] "status_code" (.num 200) ∧
    jget (_normalize_response [("message", JValue.str "ok")] 201) "success" =
      some (.bool true) := by
  obtain ⟨ha, -, -, -⟩ :=
    normalize_response_spec [("responseCode", .str "ERROR"), ("message", .str "x")] 409
  obtain ⟨-, hb, -, -⟩ :=
    normalize_response_spec [("success", JValue.bool true), ("data", .num 7)] 200
  obtain ⟨-, -, -, hd⟩ := normalize_response_spec [("message", JValue.str "ok")] 201
  obtain ⟨ha1, ha2, -, -⟩ := ha rfl
  exact ⟨ha1, ha2, (hb (by decide) rfl).1, hd (by decide) rfl⟩

/-! Permission-checker helper lemmas: membership in a `" or "`-join is
an infix of the joined string. -/

theorem infix_joinOr (x : String) (l : List String) (h : x ∈ l) :
    x.data <:+: (joinOr l).data := by
  induction l with
  | nil => cases h
  | cons a l ih =>
    cases l with
    | nil =>
      have hx : x = a := by simpa using h
      subst hx
      exact List.infix_refl _
    | cons b l' =>
      rcases List.mem_cons.mp h with hx | hx
      · subst hx
        refine ⟨[], (" or " ++ joinOr (b :: l')).data, ?_⟩
        simp [joinOr, strData_append]
      · have h2 := ih hx
        have h3 : (joinOr (b :: l')).data <:+: (joinOr (a :: b :: l')).data := by
          refine ⟨(a ++ " or ").data, [], ?_⟩
          simp [joinOr, strData_append]
        exact h2.trans h3

theorem quote_infix_scopeStr (a : String) (required : List String) (h : a ∈ required) :
    (quoteAction a).data <:+: (scopeStr required).data := by
  cases required with
  | nil => cases h
  | cons x rest =>
    cases rest with
    | nil =>
      have hx : a = x := by simpa using h
      subst hx
      exact List.infix_refl _
    | cons y rest' =>
      have h2 : quoteAction a ∈ (x :: y :: rest').map quoteAction :=
        List.mem_map_of_mem _ h
      simpa [scopeStr] using infix_joinOr (quoteAction a) ((x :: y :: rest').map quoteAction) h2

theorem scopeStr_infix_message (required : List String) :
    (scopeStr required).data <:+: (insufficientMessage required).data := by
  unfold insufficientMessage
  refine ⟨("Your token does not have permission for this API. Required: ").data,
    (". Go to the Interswitch Marketplace, open your project, " ++
      "and enable the missing API product.").data, ?_⟩
  simp [strData_append, List.append_assoc]

theorem instruction_infix_message (required : List String) :
    ("Go to the Interswitch Marketplace, open your project, and enable the missing API product.").data
      <:+: (insufficientMessage required).data := by
  have hcat : ((". Go to the Interswitch Marketplace, open your project, " ++
      "and enable the missing API product.") : String).data =
      ['.', ' '] ++
        ("Go to the Interswitch Marketplace, open your project, and enable the missing API product.").data := by
    rfl
  unfold insufficientMessage
  refine ⟨("Your token does not have permission for this API. Required: ").data ++
    (scopeStr required).data ++ ['.', ' '], [], ?_⟩
  simp [strData_append, List.append_assoc, hcat]

/-- C7: `check_api_actions` passes on every empty required list; on a
non-empty required list it passes iff some required capability is
available (OR semantics); when none is available it fails with
`InsufficientActionsError` whose message quotes every required
capability and carries the fixed instruction that the project
configuration is missing the API product grant. -/
theorem check_api_actions_spec (required available : List String) :
    (required = [] → check_api_actions required available = .ok ()) ∧
    (required ≠ [] →
      (check_api_actions required available = .ok () ↔
        ∃ a, a ∈ required ∧ a ∈ available)) ∧
    ((∀ a, a ∈ required → a ∉ available) → required ≠ [] →
      check_api_actions required available =
        .error (.insufficientActionsError required available (insufficientMessage required))) ∧
    (∀ a, a ∈ required → (quoteAction a).data <:+: (insufficientMessage required).data) ∧
    ("Go to the Interswitch Marketplace, open your project, and enable the missing API product.").data
      <:+: (insufficientMessage required).data := by
  refine ⟨?_, ?_, ?_, ?_, instruction_infix_message required⟩
  · intro h
    subst h
    rfl
  · intro h
    have hne : required.isEmpty = false := by
      cases required with
      | nil => exact absurd rfl h
      | cons a l => rfl
    have hiff : required.any (fun action => available.contains action) = true ↔
        ∃ a, a ∈ required ∧ a ∈ available := by
      simp only [List.any_eq_true, List.elem_iff]
    unfold check_api_actions
    simp only [hne, Bool.false_eq_true, if_false]
    by_cases hAny : required.any (fun action => available.contains action) = true
    · simp [hAny, hiff.mp hAny]
    · have hnex : ¬ ∃ a, a ∈ required ∧ a ∈ available := fun hex => hAny (hiff.mpr hex)
      simp [hAny, hnex]
  · intro hnone h
    have hne : required.isEmpty = false := by
      cases required with
      | nil => exact absurd rfl h
      | cons a l => rfl
    have hAny : required.any (fun action => available.contains action) = false := by
      rw [List.any_eq_false]
      intro a ha
      simp only [List.elem_iff]
      exact fun hmem => hnone a ha hmem
    unfold check_api_actions
    simp only [hne, hAny, Bool.false_eq_true, if_false]
  · exact fun a ha => (quote_infix_scopeStr a required ha).trans (scopeStr_infix_message required)

/-- Witness for C7: `required=["A","B"], available=["C"]` fails with a
message quoting both `'A'` and `'B'`; `available=["B"]` passes. -/
theorem check_api_actions_spec_witness :
    check_api_actions ["A", "B"] ["C"] =
      .error (.insufficientActionsError ["A", "B"] ["C"] (insufficientMessage ["A", "B"])) ∧
    check_api_actions ["A", "B"] ["B"] = .ok () ∧
    (quoteAction "A").data <:+: (insufficientMessage ["A", "B"]).data ∧
    (quoteAction "B").data <:+: (insufficientMessage ["A", "B"]).data := by
  obtain ⟨-, -, h3, h4, -⟩ := check_api_actions_spec ["A", "B"] ["C"]
  obtain ⟨-, h2, -, -, -⟩ := check_api_actions_spec ["A", "B"] ["B"]
  exact ⟨h3 (by decide) (by decide), (h2 (by decide)).mpr ⟨"B", by decide, by decide⟩,
    h4 "A" (by decide), h4 "B" (by decide)⟩

/-- C5 (the code evaluated at the failing configuration): with a
non-empty `required_actions` list the async capability gate fails with
`AttributeError("get_api_actions")` — no token-manager class in the
repository defines `get_api_actions` — instead of performing the
`InsufficientActionsError` check, whatever capabilities the token
carries; the sync `request` (its embedding `requestAfterAuth`) takes
no capability argument and performs no check at all. -/
theorem async_capability_gate_attribute_error :
    asyncCapabilityGate ["BILLS"] ["BILLS"] = .error (.attributeError "get_api_actions") ∧
    asyncCapabilityGate ["BILLS"] [] = .error (.attributeError "get_api_actions") ∧
    asyncTokenManagerMethods.contains "get_api_actions" = false := by
  exact ⟨rfl, rfl, by decide⟩

end Interswitch
